import Mathlib

/-!
Shallow embedding of `srv/salt/_modules/keystone.py`, a SaltStack execution
module wrapping the OpenStack Keystone v3 identity client.

Modelling conventions:
* Python values that flow through the module (None, booleans, strings and
  the plain dicts the module builds and returns) are modelled by `PVal`.
  Python dicts are association lists in insertion order; assignment
  `d[k] = v` overwrites an existing key in place (`astore`).
* Python truthiness is modelled by `PVal.truthy` / `truthyS`.
* Python exceptions that the module can raise or propagate (KeyError from
  subscripting, TypeError from subscripting a string, the client's
  NotFound) are modelled by `Exn`; fallible module functions return
  `Except Exn PVal`.
* The remote identity service (the `kstone` handle built by `auth`) is
  modelled by `Client`: lists of entity records plus the fresh
  identifiers the remote would mint for the next created entity.
  `xs.list()` returns the records, `xs.get(id)` raises NotFound when the
  id is absent, `xs.delete(id)` removes it, `xs.create(...)` appends a
  record carrying the fresh id.  Extra keyword arguments the module
  forwards to the opaque client (`profile`, `**connection_args`) do not
  affect the remote state and are dropped here.
* The Salt configuration store consulted by `auth` via
  `__salt__['config.get'](key, default)` is an opaque map from dotted key
  strings to optional values (`ConfigStore`).
-/

namespace KeystoneMod

/-- A Python value as used by this module: None, bool, str, or a dict
with string keys in insertion order. -/
inductive PVal where
  | pnone : PVal
  | pbool (b : Bool) : PVal
  | pstr (s : String) : PVal
  | pdict (entries : List (String × PVal)) : PVal

/-- Python truthiness of a `PVal` (None and empty str/dict are falsy). -/
def PVal.truthy : PVal → Bool
  | .pnone => false
  | .pbool b => b
  | .pstr s => !s.isEmpty
  | .pdict l => !l.isEmpty

/-- Truthiness of an optional-string argument (Python `None` or a str). -/
def truthyS : Option String → Bool
  | Option.none => false
  | some s => !s.isEmpty

/-- Python `'k' in d` on a dict built by this module. -/
def PVal.hasKey : PVal → String → Bool
  | .pdict l, k => l.any (fun p => p.1 == k)
  | _, _ => false

/-- Exceptions the module can raise or let propagate. -/
inductive Exn where
  | keyError : Exn
  | typeError : Exn
  | notFound : Exn
  | stopIteration : Exn
deriving DecidableEq

/-- Python subscripting `v[k]`: KeyError when the key is absent from a
dict, TypeError when `v` is a string or other non-dict. -/
def pyIndex (v : PVal) (k : String) : Except Exn PVal :=
  match v with
  | .pdict l =>
    match l.lookup k with
    | some x => Except.ok x
    | Option.none => Except.error Exn.keyError
  | _ => Except.error Exn.typeError

/-- Python dict assignment `d[k] = v`: overwrite in place if the key is
present, else append (insertion order preserved). -/
def astore (l : List (String × PVal)) (k : String) (v : PVal) :
    List (String × PVal) :=
  if l.any (fun p => p.1 == k) then
    l.map (fun p => if p.1 == k then (k, v) else p)
  else l ++ [(k, v)]

/-- Python `next(six.iterkeys(d))`: the first key of a dict, raising
StopIteration on an empty dict and TypeError on a non-dict. -/
def firstKey (v : PVal) : Except Exn String :=
  match v with
  | .pdict [] => Except.error Exn.stopIteration
  | .pdict (p :: _) => Except.ok p.1
  | _ => Except.error Exn.typeError

/-- Read a module-built id field back into an optional string (the ids
this module stores in its result dicts are always `pstr`). -/
def asOptStr : PVal → Option String
  | .pstr s => some s
  | _ => Option.none

/-- The single-entry error dict `{'Error': msg}` used as the module's
sentinel failure value. -/
def errdict (msg : String) : PVal :=
  PVal.pdict [("Error", PVal.pstr msg)]

/- ## Remote entity records (state held by the identity service) -/

structure User where
  id : String
  name : String
  email : String
  enabled : Bool
  projectId : Option String := Option.none
  domain : Option String := Option.none
deriving DecidableEq

structure Role where
  id : String
  name : String
deriving DecidableEq

structure Service where
  id : String
  name : String
  type : String
  description : String
deriving DecidableEq

structure Project where
  id : String
  name : String
  description : String
  enabled : Bool
  domain : Option String := Option.none
deriving DecidableEq

structure Endpoint where
  id : String
  region : String
  interface : String
  url : String
  service_id : String
deriving DecidableEq

structure EC2Cred where
  access : String
  secret : String
  user_id : String
  project_id : String
deriving DecidableEq

/-- The authenticated client handle (`kstone`) together with the remote
state it reaches.  `freshId`, `freshAccess`, `freshSecret` are the
identifiers the remote mints for the next created entity. -/
structure Client where
  users : List User
  roles : List Role
  services : List Service
  projects : List Project
  endpoints : List Endpoint
  ec2creds : List EC2Cred
  freshId : String
  freshAccess : String
  freshSecret : String
deriving DecidableEq

/- ## Client primitives (keystoneclient semantics) -/

/-- `kstone.users.list(domain=d)`: all users, filtered by domain when one
is given. -/
def usersList (k : Client) (domain : Option String) : List User :=
  match domain with
  | Option.none => k.users
  | some d => k.users.filter (fun u => u.domain == some d)

/-- `kstone.projects.list(domain=d)`: all projects, filtered by domain
when one is given. -/
def projectsList (k : Client) (domain : Option String) : List Project :=
  match domain with
  | Option.none => k.projects
  | some d => k.projects.filter (fun p => p.domain == some d)

/-- `kstone.users.get(uid)` result; `none` models the client raising
NotFound. -/
def usersGet (k : Client) (uid : String) : Option User :=
  k.users.find? (fun u => u.id == uid)

/-- `kstone.roles.get(rid)` result; `none` models NotFound. -/
def rolesGet (k : Client) (rid : String) : Option Role :=
  k.roles.find? (fun r => r.id == rid)

/-- `kstone.services.get(sid)` result; `none` models NotFound. -/
def servicesGet (k : Client) (sid : String) : Option Service :=
  k.services.find? (fun s => s.id == sid)

/-- `kstone.projects.get(pid)` result; `none` models NotFound. -/
def projectsGet (k : Client) (pid : String) : Option Project :=
  k.projects.find? (fun p => p.id == pid)

/-- `kstone.users.create(...)`: the remote mints `freshId` and appends
the record.  (The module always passes `domain=None` here.) -/
def usersCreate (k : Client) (name _password email : String)
    (project_id : Option String) (enabled : Bool) : User × Client :=
  let u : User := { id := k.freshId, name := name, email := email,
                    enabled := enabled, projectId := project_id,
                    domain := Option.none }
  (u, { k with users := k.users ++ [u] })

/-- `kstone.roles.create(name)`. -/
def rolesCreate (k : Client) (name : String) : Role × Client :=
  let r : Role := { id := k.freshId, name := name }
  (r, { k with roles := k.roles ++ [r] })

/-- `kstone.ec2.create(user_id, project_id)`: the remote mints an
access/secret pair. -/
def ec2Create (k : Client) (user_id project_id : String) :
    EC2Cred × Client :=
  let c : EC2Cred := { access := k.freshAccess, secret := k.freshSecret,
                       user_id := user_id, project_id := project_id }
  (c, { k with ec2creds := k.ec2creds ++ [c] })

/-- `kstone.endpoints.delete(eid)`: remove the endpoint carrying the id. -/
def endpointsDelete (eps : List Endpoint) (eid : String) : List Endpoint :=
  eps.filter (fun e => !(e.id == eid))

/- ## `auth`: configuration resolution and session keyword arguments -/

/-- The opaque Salt configuration store: dotted key names to values. -/
def ConfigStore : Type := String → Option PVal

/-- `__salt__['config.get'](key, default)`: look the dotted key up in
the store, falling back to the supplied default. -/
def config_get (st : ConfigStore) (key : String) (default : PVal) : PVal :=
  (st key).getD default

/-- The key scope `auth` prepends: `"<profile>:keystone."` when a
(truthy) profile was supplied, else `"keystone."`. -/
def authScope (profile : Option String) : String :=
  if truthyS profile then profile.getD "" ++ ":keystone." else "keystone."

/-- The inner `get(key, default)` helper of `auth`: an explicit
`connection_<key>` entry of `connection_args` wins (by key presence,
Python `dict.get`); otherwise `config.get(scope + key, default)`. -/
def authGet (st : ConfigStore) (conn : List (String × PVal))
    (profile : Option String) (key : String) (default : PVal) : PVal :=
  match conn.lookup ("connection_" ++ key) with
  | some v => v
  | Option.none => config_get st (authScope profile ++ key) default

/-- The eight configuration values `auth` resolves. -/
structure AuthResolved where
  user : PVal
  password : PVal
  project : PVal
  project_id : PVal
  auth_url : PVal
  insecure : PVal
  token : PVal
  endpoint : PVal

/-- The resolution block of `auth` (lines 106-113 of the source), with
the source's hard-coded defaults. -/
def authResolve (st : ConfigStore) (conn : List (String × PVal))
    (profile : Option String) : AuthResolved :=
  { user := authGet st conn profile "user" (PVal.pstr "admin"),
    password := authGet st conn profile "password" (PVal.pstr "ADMIN"),
    project := authGet st conn profile "project" (PVal.pstr "admin"),
    project_id := authGet st conn profile "project_id" PVal.pnone,
    auth_url := authGet st conn profile "auth_url"
      (PVal.pstr "http://127.0.0.1:35357/v2.0/"),
    insecure := authGet st conn profile "insecure" (PVal.pbool false),
    token := authGet st conn profile "token" PVal.pnone,
    endpoint := authGet st conn profile "endpoint"
      (PVal.pstr "http://127.0.0.1:35357/v2.0") }

/-- The keyword arguments `auth` hands to `client.Client(**kwargs)`:
token path when the resolved token is truthy, else the credential path,
with `insecure=True` appended only when the resolved value is truthy. -/
def auth_kwargs (r : AuthResolved) : List (String × PVal) :=
  if r.token.truthy then
    [("token", r.token), ("endpoint", r.endpoint)]
  else
    let base := [("username", r.user), ("password", r.password),
                 ("project_name", r.project), ("project_id", r.project_id),
                 ("auth_url", r.auth_url)]
    if r.insecure.truthy then base ++ [("insecure", PVal.pbool true)]
    else base

/-- `auth(profile, **connection_args)`: resolve configuration, then build
the session keyword arguments. -/
def auth (st : ConfigStore) (conn : List (String × PVal))
    (profile : Option String) : List (String × PVal) :=
  auth_kwargs (authResolve st conn profile)

/- ## Result-dict builders (the reshape step of each read path) -/

/-- The per-user dict `user_get`/`user_list` build: the legacy
`project_id` entry is added only when `getattr(user, 'projectId', None)`
is truthy. -/
def userEntry (u : User) : PVal :=
  let base := [("id", PVal.pstr u.id), ("name", PVal.pstr u.name),
               ("email", PVal.pstr u.email), ("enabled", PVal.pbool u.enabled)]
  match u.projectId with
  | some p => if !p.isEmpty then PVal.pdict (astore base "project_id" (PVal.pstr p))
              else PVal.pdict base
  | Option.none => PVal.pdict base

/-- The per-role dict `role_get`/`role_list` build. -/
def roleEntry (r : Role) : PVal :=
  PVal.pdict [("id", PVal.pstr r.id), ("name", PVal.pstr r.name)]

/-- The per-service dict `service_get` builds. -/
def serviceEntry (s : Service) : PVal :=
  PVal.pdict [("id", PVal.pstr s.id), ("name", PVal.pstr s.name),
              ("type", PVal.pstr s.type),
              ("description", PVal.pstr s.description)]

/-- The per-service dict `service_list` builds (field order differs from
`service_get`). -/
def serviceListEntry (s : Service) : PVal :=
  PVal.pdict [("id", PVal.pstr s.id), ("name", PVal.pstr s.name),
              ("description", PVal.pstr s.description),
              ("type", PVal.pstr s.type)]

/-- The per-project dict `project_get`/`project_list` build. -/
def projectEntry (p : Project) : PVal :=
  PVal.pdict [("id", PVal.pstr p.id), ("name", PVal.pstr p.name),
              ("description", PVal.pstr p.description),
              ("enabled", PVal.pbool p.enabled)]

/-- The per-endpoint dict `endpoint_list`/`endpoint_get` build. -/
def endpointEntry (e : Endpoint) : PVal :=
  PVal.pdict [("id", PVal.pstr e.id), ("region", PVal.pstr e.region),
              ("interface", PVal.pstr e.interface),
              ("url", PVal.pstr e.url),
              ("service_id", PVal.pstr e.service_id)]

/- ## Module read paths -/

/-- `user_get(user_id, name, domain, ...)` (lines 698-734): scan by name
first when a name was given (overwriting `user_id` on a match), then
sentinel-fail on a falsy id, then get by id — the only operation that
catches the client's NotFound, converting it to an error dict. -/
def user_get (k : Client) (user_id name domain : Option String) :
    Except Exn PVal :=
  let user_id := if truthyS name then
      match (usersList k domain).find? (fun u => u.name == name.getD "") with
      | some u => some u.id
      | Option.none => user_id
    else user_id
  if !truthyS user_id then Except.ok (errdict "Unable to resolve user id")
  else
    match usersGet k (user_id.getD "") with
    | Option.none =>
      Except.ok (PVal.pdict [("Error",
        PVal.pstr ("Could not find user \x27" ++ user_id.getD "" ++ "\x27"))])
    | some u => Except.ok (PVal.pdict [(u.name, userEntry u)])

/-- `role_get(role_id, name, ...)` (lines 394-418); the client's NotFound
on the final get-by-id propagates. -/
def role_get (k : Client) (role_id name : Option String) : Except Exn PVal :=
  let role_id := if truthyS name then
      match k.roles.find? (fun r => r.name == name.getD "") with
      | some r => some r.id
      | Option.none => role_id
    else role_id
  if !truthyS role_id then Except.ok (errdict "Unable to resolve role id")
  else
    match rolesGet k (role_id.getD "") with
    | Option.none => Except.error Exn.notFound
    | some r => Except.ok (PVal.pdict [(r.name, roleEntry r)])

/-- `service_get(service_id, name, ...)` (lines 475-501); NotFound on the
final get-by-id propagates. -/
def service_get (k : Client) (service_id name : Option String) :
    Except Exn PVal :=
  let service_id := if truthyS name then
      match k.services.find? (fun s => s.name == name.getD "") with
      | some s => some s.id
      | Option.none => service_id
    else service_id
  if !truthyS service_id then
    Except.ok (errdict "Unable to resolve service id")
  else
    match servicesGet k (service_id.getD "") with
    | Option.none => Except.error Exn.notFound
    | some s => Except.ok (PVal.pdict [(s.name, serviceEntry s)])

/-- `project_get(project_id, name, domain, ...)` (lines 570-597);
NotFound on the final get-by-id propagates. -/
def project_get (k : Client) (project_id name domain : Option String) :
    Except Exn PVal :=
  let project_id := if truthyS name then
      match (projectsList k domain).find? (fun p => p.name == name.getD "") with
      | some p => some p.id
      | Option.none => project_id
    else project_id
  if !truthyS project_id then
    Except.ok (errdict "Unable to resolve project id")
  else
    match projectsGet k (project_id.getD "") with
    | Option.none => Except.error Exn.notFound
    | some p => Except.ok (PVal.pdict [(p.name, projectEntry p)])

/-- `service_list(...)` (lines 504-521): a dict keyed by service name; a
later service with the same name overwrites an earlier one (Python dict
assignment). -/
def service_list (k : Client) : List (String × PVal) :=
  k.services.foldl (fun d s => astore d s.name (serviceListEntry s)) []

/-- `services[service]['id']` as used by `endpoint_get`/`endpoint_delete`:
`service_list` keys the dict by name and later entries overwrite earlier
ones, so membership and lookup see the last service in listing order
carrying the name. -/
def serviceByName (k : Client) (service : String) : Option Service :=
  (k.services.filter (fun s => s.name == service)).getLast?

/-- `endpoint_get(service, ...)` (lines 256-275): resolve the service by
name through the `service_list` dict, then return the entry of the first
endpoint in listing order whose `service_id` matches (the iteration over
the id-keyed `endpoint_list` dict visits the endpoint records in listing
order). -/
def endpoint_get (k : Client) (service : String) : PVal :=
  match serviceByName k service with
  | Option.none => errdict "Could not find the specified service"
  | some s =>
    match k.endpoints.find? (fun e => e.service_id == s.id) with
    | some e => endpointEntry e
    | Option.none => errdict "Could not find endpoint for the specified service"

/- ## Module mutation paths -/

/-- The deletion loop of `endpoint_delete` (lines 338-340): walk the
snapshot of the endpoint listing and delete from the remote each
endpoint whose `service_id` matches. -/
def epLoop (st : Client) (items : List Endpoint) (sid : String) : Client :=
  match items with
  | [] => st
  | e :: rest =>
    epLoop (if e.service_id == sid then
              { st with endpoints := endpointsDelete st.endpoints e.id }
            else st) rest sid

/-- `endpoint_delete(service, ...)` (lines 322-343): resolve the service,
delete every matching endpoint, then return `True` when a follow-up
`endpoint_get` no longer finds one (and Python's implicit `None`
otherwise). -/
def endpoint_delete (k : Client) (service : String) : PVal × Client :=
  match serviceByName k service with
  | Option.none => (errdict "Could not find the specified service", k)
  | some s =>
    let kp := epLoop k k.endpoints s.id
    let ep := endpoint_get kp service
    if !ep.truthy || ep.hasKey "Error" then (PVal.pbool true, kp)
    else (PVal.pnone, kp)

/-- `role_create(name, ...)` (lines 346-361): refuse when `role_get` by
name already succeeds, else create and return `role_get` by the same
name (not by the fresh id). -/
def role_create (k : Client) (name : String) : Except Exn PVal := do
  let pre ← role_get k Option.none (some name)
  if !(pre.hasKey "Error") then
    pure (PVal.pdict [("Error",
      PVal.pstr ("Role \"" ++ name ++ "\" already exists"))])
  else
    let (_, kp) := rolesCreate k name
    role_get kp Option.none (some name)

/-- `role_delete(role_id, name, ...)` (lines 364-391): name scan
overwrites the id, sentinel on falsy id, an inner `role_get` by id
(whose NotFound propagates), delete, then the confirmation string. -/
def role_delete (k : Client) (role_id name : Option String) :
    Except Exn (PVal × Client) :=
  let role_id := if truthyS name then
      match k.roles.find? (fun r => r.name == name.getD "") with
      | some r => some r.id
      | Option.none => role_id
    else role_id
  if !truthyS role_id then Except.ok (errdict "Unable to resolve role id", k)
  else
    match rolesGet k (role_id.getD "") with
    | Option.none => Except.error Exn.notFound
    | some _ =>
      let kp := { k with
        roles := k.roles.filter (fun r => !(r.id == role_id.getD "")) }
      let ret := "Role ID " ++ role_id.getD "" ++ " deleted"
      let ret := if truthyS name then ret ++ " (" ++ name.getD "" ++ ")"
                 else ret
      Except.ok (PVal.pstr ret, kp)

/-- `user_create(name, password, email, project_id, ..., enabled, ...)`
(lines 737-755): delegate creation (the source hard-codes
`domain=None`), then return `user_get` by the fresh id. -/
def user_create (k : Client) (name password email : String)
    (project_id : Option String) (enabled : Bool) : Except Exn PVal :=
  let (item, kp) := usersCreate k name password email project_id enabled
  user_get kp (some item.id) Option.none Option.none

/-- `user_delete(user_id, name, ...)` (lines 758-783): name scan
overwrites the id, sentinel on falsy id, delete (the client's NotFound
on an unknown id propagates), then the confirmation string. -/
def user_delete (k : Client) (user_id name : Option String) :
    Except Exn (PVal × Client) :=
  let user_id := if truthyS name then
      match k.users.find? (fun u => u.name == name.getD "") with
      | some u => some u.id
      | Option.none => user_id
    else user_id
  if !truthyS user_id then Except.ok (errdict "Unable to resolve user id", k)
  else
    match usersGet k (user_id.getD "") with
    | Option.none => Except.error Exn.notFound
    | some _ =>
      let kp := { k with
        users := k.users.filter (fun u => !(u.id == user_id.getD "")) }
      let ret := "User ID " ++ user_id.getD "" ++ " deleted"
      let ret := if truthyS name then ret ++ " (" ++ name.getD "" ++ ")"
                 else ret
      Except.ok (PVal.pstr ret, kp)

/-- `project_delete(project_id, name, ...)` (lines 542-567). -/
def project_delete (k : Client) (project_id name : Option String) :
    Except Exn (PVal × Client) :=
  let project_id := if truthyS name then
      match k.projects.find? (fun p => p.name == name.getD "") with
      | some p => some p.id
      | Option.none => project_id
    else project_id
  if !truthyS project_id then
    Except.ok (errdict "Unable to resolve project id", k)
  else
    match projectsGet k (project_id.getD "") with
    | Option.none => Except.error Exn.notFound
    | some _ =>
      let kp := { k with
        projects := k.projects.filter (fun p => !(p.id == project_id.getD "")) }
      let ret := "Tenant ID " ++ project_id.getD "" ++ " deleted"
      let ret := if truthyS name then ret ++ " (" ++ name.getD "" ++ ")"
                 else ret
      Except.ok (PVal.pstr ret, kp)

/-- `service_delete(service_id, name, ...)` (lines 456-472): the id is
resolved through a nested `service_get(name=...)[name]['id']`
subscription chain; the confirmation string carries only the id, never
the name. -/
def service_delete (k : Client) (service_id name : Option String) :
    Except Exn (PVal × Client) := do
  let sid ← if truthyS name then do
      let d ← service_get k Option.none name
      let v ← pyIndex d (name.getD "")
      let i ← pyIndex v "id"
      pure (asOptStr i)
    else pure service_id
  match servicesGet k (sid.getD "") with
  | Option.none => Except.error Exn.notFound
  | some _ =>
    Except.ok
      (PVal.pstr ("Keystone service ID \"" ++ sid.getD "" ++ "\" deleted"),
       { k with services := k.services.filter (fun s => !(s.id == sid.getD "")) })

/-- The single delegated update call of `user_update`/`project_update`,
with the exact keyword values the module passes. -/
inductive UpdateCall where
  | usersUpdate (user : String) (name email : String)
      (password domain default_project : Option String) (enabled : Bool)
  | projectsUpdate (project_id name : String) (domain : Option String)
      (description : String) (enabled : Bool)
deriving DecidableEq

/-- `user_update(user_id, name, email, password, enabled, domain,
project, ...)` (lines 786-821): scan by name only when no truthy id was
supplied; fetch the current user (NotFound propagates); backfill falsy
`name`/`email` and `None` `enabled` from the current object; pass
`password`, `domain` and `project` through as supplied. -/
def user_update (k : Client) (user_id name email password : Option String)
    (enabled : Option Bool) (domain project : Option String) :
    Except Exn (PVal × Option UpdateCall) :=
  let resolved := if truthyS user_id then user_id else
    match (usersList k domain).find?
        (fun u => match name with
                  | some n => u.name == n
                  | Option.none => false) with
    | some u => some u.id
    | Option.none => user_id
  if !truthyS resolved then
    Except.ok (errdict "Unable to resolve user id", Option.none)
  else
    match usersGet k (resolved.getD "") with
    | Option.none => Except.error Exn.notFound
    | some u =>
      let nm := if truthyS name then name.getD "" else u.name
      let em := if truthyS email then email.getD "" else u.email
      let en := match enabled with
                | some b => b
                | Option.none => u.enabled
      Except.ok (PVal.pstr ("Info updated for user ID " ++ resolved.getD ""),
        some (UpdateCall.usersUpdate (resolved.getD "") nm em
          password domain project en))

/-- `project_update(project_id, name, description, domain, enabled, ...)`
(lines 620-652): scan by name (no domain scoping) only when no truthy id
was supplied; backfill falsy `name`/`description` and `None` `enabled`
from the current project; pass `domain` through as supplied; the Python
function has no return statement, so it returns `None`. -/
def project_update (k : Client)
    (project_id name description domain : Option String)
    (enabled : Option Bool) : Except Exn (PVal × Option UpdateCall) :=
  let resolved := if truthyS project_id then project_id else
    match k.projects.find?
        (fun p => match name with
                  | some n => p.name == n
                  | Option.none => false) with
    | some p => some p.id
    | Option.none => project_id
  if !truthyS resolved then
    Except.ok (errdict "Unable to resolve project id", Option.none)
  else
    match projectsGet k (resolved.getD "") with
    | Option.none => Except.error Exn.notFound
    | some p =>
      let nm := if truthyS name then name.getD "" else p.name
      let de := if truthyS description then description.getD ""
                else p.description
      let en := match enabled with
                | some b => b
                | Option.none => p.enabled
      Except.ok (PVal.pnone,
        some (UpdateCall.projectsUpdate (resolved.getD "") nm domain de en))

/- ## EC2-credential and role-assignment paths -/

/-- `ec2_credentials_create(user_id, name, project_id, project, ...)`
(lines 132-165): ids are resolved through nested
`user_get(name=...)[name]['id']` / `project_get(name=...)[name]['id']`
subscription chains (whose failures raise KeyError); the create response
is reshaped directly into a flat dict — no follow-up get. -/
def ec2_credentials_create (k : Client)
    (user_id name project_id project : Option String) : Except Exn PVal := do
  let user_id ← if truthyS name then do
      let d ← user_get k Option.none name Option.none
      let v ← pyIndex d (name.getD "")
      let i ← pyIndex v "id"
      pure (asOptStr i)
    else pure user_id
  if !truthyS user_id then pure (errdict "Could not resolve User ID")
  else do
    let project_id ← if truthyS project then do
        let d ← project_get k Option.none project Option.none
        let v ← pyIndex d (project.getD "")
        let i ← pyIndex v "id"
        pure (asOptStr i)
      else pure project_id
    if !truthyS project_id then pure (errdict "Could not resolve Tenant ID")
    else
      let (c, _) := ec2Create k (user_id.getD "") (project_id.getD "")
      pure (PVal.pdict [("access", PVal.pstr c.access),
                        ("secret", PVal.pstr c.secret),
                        ("project_id", PVal.pstr c.project_id),
                        ("user_id", PVal.pstr c.user_id)])

/-- `ec2_credentials_get(user_id, name, access, ...)` (lines 193-223):
inline name scan, sentinel on falsy user id, then sentinel on a falsy
access key — only past both checks is the client's `ec2.get` delegated
(NotFound propagates; extra kwargs the source forwards to the opaque
client are dropped here). -/
def ec2_credentials_get (k : Client) (user_id name access : Option String) :
    Except Exn PVal :=
  let user_id := if truthyS name then
      match k.users.find? (fun u => u.name == name.getD "") with
      | some u => some u.id
      | Option.none => user_id
    else user_id
  if !truthyS user_id then Except.ok (errdict "Unable to resolve user id")
  else if !truthyS access then
    Except.ok (errdict "Access key is required")
  else
    match k.ec2creds.find? (fun c =>
        c.user_id == user_id.getD "" && c.access == access.getD "") with
    | Option.none => Except.error Exn.notFound
    | some c =>
      Except.ok (PVal.pdict [(c.user_id,
        PVal.pdict [("user_id", PVal.pstr c.user_id),
                    ("project", PVal.pstr c.project_id),
                    ("access", PVal.pstr c.access),
                    ("secret", PVal.pstr c.secret)])])

/-- `user_role_add(user_id, user, project_id, project, role_id, role, ...)`
(lines 824-870): each of user/project/role resolves through a nested get
subscription chain when a name was given (KeyError on failure), or
reverse-resolves the name from the id via
`next(six.iterkeys(get(id)))['name']` — which subscripts the first dict
key, a string, and so raises TypeError.  The grant itself adds no state
tracked here. -/
def user_role_add (k : Client)
    (user_id user project_id project role_id role : Option String) :
    Except Exn PVal := do
  let user_id ← if truthyS user then do
      let d ← user_get k Option.none user Option.none
      let v ← pyIndex d (user.getD "")
      let i ← pyIndex v "id"
      pure (asOptStr i)
    else do
      let d ← user_get k user_id Option.none Option.none
      let kk ← firstKey d
      let _ ← pyIndex (PVal.pstr kk) "name"
      pure user_id
  if !truthyS user_id then pure (errdict "Unable to resolve user id")
  else do
    let project_id ← if truthyS project then do
        let d ← project_get k Option.none project Option.none
        let v ← pyIndex d (project.getD "")
        let i ← pyIndex v "id"
        pure (asOptStr i)
      else do
        let d ← project_get k project_id Option.none Option.none
        let kk ← firstKey d
        let _ ← pyIndex (PVal.pstr kk) "name"
        pure project_id
    if !truthyS project_id then pure (errdict "Unable to resolve project id")
    else do
      let role_id ← if truthyS role then do
          let d ← role_get k Option.none role
          let v ← pyIndex d (role.getD "")
          let i ← pyIndex v "id"
          pure (asOptStr i)
        else do
          let d ← role_get k role_id Option.none
          let kk ← firstKey d
          let _ ← pyIndex (PVal.pstr kk) "name"
          pure role_id
      if !truthyS role_id then pure (errdict "Unable to resolve role id")
      else
        pure (PVal.pstr ("\"" ++ role.getD "" ++ "\" role added for user \""
          ++ user.getD "" ++ "\" for \"" ++ project.getD "" ++ "\" project"))

/- ## Shared helper lemmas -/

@[simp]
theorem truthyS_none : truthyS Option.none = false := rfl

theorem truthyS_some_of_ne {s : String} (h : s ≠ "") :
    truthyS (some s) = true := by
  simp only [truthyS, Bool.not_eq_true']
  cases he : s.isEmpty with
  | false => rfl
  | true => exact absurd ((String.isEmpty_iff s).mp he) h

theorem find?_append_of_left_none {α : Type} {l1 : List α} {p : α → Bool}
    (l2 : List α) (h : l1.find? p = Option.none) :
    (l1 ++ l2).find? p = l2.find? p := by
  rw [List.find?_append, h, Option.none_or]

/-- The `endpoint_delete` loop never touches the service store. -/
theorem epLoop_services (items : List Endpoint) (st : Client) (sid : String) :
    (epLoop st items sid).services = st.services := by
  induction items generalizing st with
  | nil => rfl
  | cons e rest ih =>
    cases h : e.service_id == sid <;> simp [epLoop, h, ih]

/-- Effect of the `endpoint_delete` loop on the endpoint store: exactly
those endpoints of the pre-state survive whose id is not the id of some
matching endpoint of the iterated snapshot. -/
theorem epLoop_endpoints (items : List Endpoint) (st : Client) (sid : String) :
    (epLoop st items sid).endpoints =
      st.endpoints.filter (fun x =>
        !((items.filter (fun e => e.service_id == sid)).any
            (fun e => x.id == e.id))) := by
  induction items generalizing st with
  | nil => simp [epLoop]
  | cons e rest ih =>
    cases h : e.service_id == sid with
    | false => simp [epLoop, h, ih, List.filter_cons]
    | true =>
      simp only [epLoop, h, if_true]
      rw [ih]
      simp only [endpointsDelete, List.filter_filter, List.filter_cons, h,
        if_true, List.any_cons, Bool.not_or]
      exact List.filter_congr (fun x _ => by
        cases hxx : x.id == e.id <;> simp [hxx])

/-- After the `endpoint_delete` loop over the snapshot of the current
endpoint listing, no endpoint matching the service id survives. -/
theorem epLoop_no_match (k : Client) (sid : String) :
    ∀ e ∈ (epLoop k k.endpoints sid).endpoints, (e.service_id == sid) = false := by
  intro e he
  rw [epLoop_endpoints] at he
  have hmem := (List.mem_filter.mp he).1
  have hpred := (List.mem_filter.mp he).2
  cases hm : e.service_id == sid with
  | false => rfl
  | true =>
    exfalso
    have hany : (k.endpoints.filter (fun x => x.service_id == sid)).any
        (fun x => e.id == x.id) = true :=
      List.any_eq_true.mpr ⟨e, List.mem_filter.mpr ⟨hmem, hm⟩, by simp⟩
    rw [hany] at hpred
    simp at hpred

/- ## Concrete fixtures for counterexamples and witnesses -/

/-- A small concrete remote state: one user carrying the legacy
`projectId` attribute, two roles with distinct names, one service with
two endpoints plus an unrelated endpoint, one project, one EC2
credential matching the fresh access/secret pair. -/
def Kdemo : Client :=
  { users := [⟨"u1", "bob", "b@x", true, some "p", Option.none⟩],
    roles := [⟨"ra", "A"⟩, ⟨"rb", "B"⟩],
    services := [⟨"s1", "nova", "compute", "desc"⟩],
    projects := [⟨"p1", "proj", "d", true, Option.none⟩],
    endpoints := [⟨"e1", "r", "public", "url1", "s1"⟩,
                  ⟨"e2", "r", "admin", "url2", "s1"⟩,
                  ⟨"e3", "r", "public", "url3", "s9"⟩],
    ec2creds := [⟨"AK2", "SK2", "u1", "p1"⟩],
    freshId := "f1", freshAccess := "AK2", freshSecret := "SK2" }

/-- A configuration store where the global `keystone.user` key is set
but no profile-scoped key is. -/
def storeGlobalOnly : ConfigStore :=
  fun key => if key = "keystone.user" then some (PVal.pstr "c") else Option.none

/- ## C2 -/

/-- C2, counterexample: with profile `"p"`, `connection_user` absent,
`"p:keystone.user"` unset and the global `"keystone.user"` set to `"c"`,
`auth` resolves the user to the hard-coded default `"admin"`, not to the
global value `"c"` — there is no fallback from the profile scope to the
global scope. -/
theorem c2_counterexample :
    storeGlobalOnly "keystone.user" = some (PVal.pstr "c") ∧
    (authResolve storeGlobalOnly [] (some "p")).user = PVal.pstr "admin" ∧
    PVal.pstr "admin" ≠ PVal.pstr "c" := by
  refine ⟨rfl, rfl, ?_⟩
  intro h
  simp at h

/-- C2, amended: configuration resolution in `auth` is: the explicit
`connection_<key>` override wins by key presence; otherwise, with a
(truthy) profile, the single key `"<profile>:keystone.<key>"` is
consulted and the hard-coded default is used when it is unset — the
global key is never consulted; without a profile, the global
`"keystone.<key>"` is consulted, then the default. -/
theorem c2_auth_precedence :
    (∀ (st : ConfigStore) conn profile key default v,
        conn.lookup ("connection_" ++ key) = some v →
        authGet st conn profile key default = v)
  ∧ (∀ (st : ConfigStore) conn profile key default v,
        conn.lookup ("connection_" ++ key) = Option.none →
        st (authScope profile ++ key) = some v →
        authGet st conn profile key default = v)
  ∧ (∀ (st : ConfigStore) conn profile key default,
        conn.lookup ("connection_" ++ key) = Option.none →
        st (authScope profile ++ key) = Option.none →
        authGet st conn profile key default = default)
  ∧ (∀ (profile : Option String), truthyS profile = true →
        authScope profile = profile.getD "" ++ ":keystone.")
  ∧ ((authScope Option.none) = "keystone.") := by
  refine ⟨?_, ?_, ?_, ?_, rfl⟩
  · intro st conn profile key default v h
    simp [authGet, h]
  · intro st conn profile key default v h1 h2
    simp [authGet, config_get, h1, h2]
  · intro st conn profile key default h1 h2
    simp [authGet, config_get, h1, h2]
  · intro profile h
    simp [authScope, h]

/-- C2, witness for `c2_auth_precedence` at concrete inputs: an explicit
override wins; a set profile-scoped key wins next; an unset
profile-scoped key falls to the default even when the global key is set;
the profile scope string is as described. -/
theorem c2_auth_precedence_witness :
    authGet storeGlobalOnly [("connection_user", PVal.pstr "a")] (some "p")
      "user" (PVal.pstr "admin") = PVal.pstr "a"
  ∧ authGet (fun key => if key = "p:keystone.user" then some (PVal.pstr "b")
        else Option.none) [] (some "p") "user" (PVal.pstr "admin") = PVal.pstr "b"
  ∧ authGet storeGlobalOnly [] (some "p") "user" (PVal.pstr "admin") =
      PVal.pstr "admin"
  ∧ authScope (some "p") = "p:keystone." := by
  refine ⟨?_, ?_, ?_, ?_⟩
  · exact c2_auth_precedence.1 storeGlobalOnly
      [("connection_user", PVal.pstr "a")] (some "p") "user"
      (PVal.pstr "admin") (PVal.pstr "a") rfl
  · exact c2_auth_precedence.2.1 _ [] (some "p") "user" (PVal.pstr "admin")
      (PVal.pstr "b") rfl rfl
  · exact c2_auth_precedence.2.2.1 storeGlobalOnly [] (some "p") "user"
      (PVal.pstr "admin") rfl rfl
  · exact c2_auth_precedence.2.2.2.1 (some "p") rfl

/- ## C8 -/

/-- C8: when the resolved token is truthy the session kwargs are exactly
`{token, endpoint}`; otherwise they are
`{username, password, project_name, project_id, auth_url}`, with
`insecure=True` appended only when the resolved insecure value is
truthy. -/
theorem c8_session_kwargs (st : ConfigStore) (conn : List (String × PVal))
    (profile : Option String) :
    ((authResolve st conn profile).token.truthy = true →
        auth st conn profile =
          [("token", (authResolve st conn profile).token),
           ("endpoint", (authResolve st conn profile).endpoint)])
  ∧ ((authResolve st conn profile).token.truthy = false →
      (authResolve st conn profile).insecure.truthy = true →
        auth st conn profile =
          [("username", (authResolve st conn profile).user),
           ("password", (authResolve st conn profile).password),
           ("project_name", (authResolve st conn profile).project),
           ("project_id", (authResolve st conn profile).project_id),
           ("auth_url", (authResolve st conn profile).auth_url),
           ("insecure", PVal.pbool true)])
  ∧ ((authResolve st conn profile).token.truthy = false →
      (authResolve st conn profile).insecure.truthy = false →
        auth st conn profile =
          [("username", (authResolve st conn profile).user),
           ("password", (authResolve st conn profile).password),
           ("project_name", (authResolve st conn profile).project),
           ("project_id", (authResolve st conn profile).project_id),
           ("auth_url", (authResolve st conn profile).auth_url)]) := by
  refine ⟨?_, ?_, ?_⟩
  · intro h
    simp [auth, auth_kwargs, h]
  · intro h1 h2
    simp [auth, auth_kwargs, h1, h2]
  · intro h1 h2
    simp [auth, auth_kwargs, h1, h2]

/-- C8, witness for `c8_session_kwargs` at concrete inputs: a token
override yields the token path; with nothing configured the credential
path without the insecure flag results; with `connection_insecure` the
flag is appended. -/
theorem c8_session_kwargs_witness :
    auth (fun _ => Option.none) [("connection_token", PVal.pstr "T"),
        ("connection_endpoint", PVal.pstr "E")] Option.none =
      [("token", PVal.pstr "T"), ("endpoint", PVal.pstr "E")]
  ∧ auth (fun _ => Option.none) [] Option.none =
      [("username", PVal.pstr "admin"), ("password", PVal.pstr "ADMIN"),
       ("project_name", PVal.pstr "admin"), ("project_id", PVal.pnone),
       ("auth_url", PVal.pstr "http://127.0.0.1:35357/v2.0/")]
  ∧ auth (fun _ => Option.none) [("connection_insecure", PVal.pbool true)]
        Option.none =
      [("username", PVal.pstr "admin"), ("password", PVal.pstr "ADMIN"),
       ("project_name", PVal.pstr "admin"), ("project_id", PVal.pnone),
       ("auth_url", PVal.pstr "http://127.0.0.1:35357/v2.0/"),
       ("insecure", PVal.pbool true)] := by
  refine ⟨?_, ?_, ?_⟩
  · exact (c8_session_kwargs (fun _ => Option.none)
      [("connection_token", PVal.pstr "T"), ("connection_endpoint", PVal.pstr "E")]
      Option.none).1 rfl
  · exact (c8_session_kwargs (fun _ => Option.none) [] Option.none).2.2 rfl rfl
  · exact (c8_session_kwargs (fun _ => Option.none)
      [("connection_insecure", PVal.pbool true)] Option.none).2.1 rfl rfl

/- ## C9 -/

/-- C9: a remote not-found on the get-by-id is caught only in `user_get`,
where it becomes the error dict `Could not find user '<id>'`; in
`service_get`, `role_get` and `project_get` the same situation
propagates as the client's NotFound exception. -/
theorem c9_notfound_handling (k : Client) :
    (∀ uid, truthyS (some uid) = true → usersGet k uid = Option.none →
        user_get k (some uid) Option.none Option.none =
          Except.ok (PVal.pdict [("Error",
            PVal.pstr ("Could not find user \x27" ++ uid ++ "\x27"))]))
  ∧ (∀ sid, truthyS (some sid) = true → servicesGet k sid = Option.none →
        service_get k (some sid) Option.none = Except.error Exn.notFound)
  ∧ (∀ rid, truthyS (some rid) = true → rolesGet k rid = Option.none →
        role_get k (some rid) Option.none = Except.error Exn.notFound)
  ∧ (∀ pid, truthyS (some pid) = true → projectsGet k pid = Option.none →
        project_get k (some pid) Option.none Option.none =
          Except.error Exn.notFound) := by
  refine ⟨?_, ?_, ?_, ?_⟩
  · intro uid h1 h2
    simp [user_get, h1, h2]
  · intro sid h1 h2
    simp [service_get, h1, h2]
  · intro rid h1 h2
    simp [role_get, h1, h2]
  · intro pid h1 h2
    simp [project_get, h1, h2]

/-- C9, witness for `c9_notfound_handling`: on `Kdemo` the unknown id
`"zz"` is converted to an error dict by `user_get` but raises NotFound
from `service_get`, `role_get` and `project_get`. -/
theorem c9_notfound_handling_witness :
    user_get Kdemo (some "zz") Option.none Option.none =
      Except.ok (PVal.pdict [("Error",
        PVal.pstr "Could not find user \x27zz\x27")])
  ∧ service_get Kdemo (some "zz") Option.none = Except.error Exn.notFound
  ∧ role_get Kdemo (some "zz") Option.none = Except.error Exn.notFound
  ∧ project_get Kdemo (some "zz") Option.none Option.none =
      Except.error Exn.notFound := by
  refine ⟨?_, ?_, ?_, ?_⟩
  · exact (c9_notfound_handling Kdemo).1 "zz" rfl rfl
  · exact (c9_notfound_handling Kdemo).2.1 "zz" rfl rfl
  · exact (c9_notfound_handling Kdemo).2.2.1 "zz" rfl rfl
  · exact (c9_notfound_handling Kdemo).2.2.2 "zz" rfl rfl

/- ## C10 -/

/-- C10: when the user id resolves (supplied directly, or via a name
scan) but no truthy access key is supplied, `ec2_credentials_get`
returns the sentinel `{'Error': 'Access key is required'}`; the result
does not depend on the EC2-credential store, so no EC2-credential call
is delegated. -/
theorem c10_access_required (k : Client) :
    (∀ uid access, truthyS (some uid) = true → truthyS access = false →
        ec2_credentials_get k (some uid) Option.none access =
          Except.ok (errdict "Access key is required"))
  ∧ (∀ name u access, truthyS name = true →
        k.users.find? (fun x => x.name == name.getD "") = some u →
        truthyS (some u.id) = true → truthyS access = false →
        ∀ uid, ec2_credentials_get k uid name access =
          Except.ok (errdict "Access key is required"))
  ∧ (∀ uid access creds, truthyS (some uid) = true → truthyS access = false →
        ec2_credentials_get { k with ec2creds := creds }
            (some uid) Option.none access =
          ec2_credentials_get k (some uid) Option.none access) := by
  refine ⟨?_, ?_, ?_⟩
  · intro uid access h1 h2
    simp [ec2_credentials_get, h1, h2]
  · intro name u access h1 h2 h3 h4 uid
    simp [ec2_credentials_get, h1, h2, h3, h4]
  · intro uid access creds h1 h2
    simp [ec2_credentials_get, h1, h2]

/-- C10, witness for `c10_access_required` on `Kdemo` (whose credential
store is nonempty): with user id `"u1"` resolved directly or via the
name `"bob"` and no access key, the access-key sentinel results, and
emptying the credential store changes nothing. -/
theorem c10_access_required_witness :
    ec2_credentials_get Kdemo (some "u1") Option.none Option.none =
      Except.ok (errdict "Access key is required")
  ∧ ec2_credentials_get Kdemo Option.none (some "bob") Option.none =
      Except.ok (errdict "Access key is required")
  ∧ ec2_credentials_get { Kdemo with ec2creds := [] }
        (some "u1") Option.none Option.none =
      ec2_credentials_get Kdemo (some "u1") Option.none Option.none := by
  refine ⟨?_, ?_, ?_⟩
  · exact (c10_access_required Kdemo).1 "u1" Option.none rfl rfl
  · exact (c10_access_required Kdemo).2.1 (some "bob")
      ⟨"u1", "bob", "b@x", true, some "p", Option.none⟩ Option.none
      rfl rfl rfl rfl Option.none
  · exact (c10_access_required Kdemo).2.2 "u1" Option.none [] rfl rfl

/- ## C1 -/

/-- C1, counterexample: on `Kdemo` (role `"A"` has id `"ra"`, role `"B"`
has id `"rb"`), calling `role_get` with both `role_id="ra"` and
`name="B"` returns role B — the name scan overwrites the supplied id —
whereas the claim says the supplied id `"ra"` would be used, as the
id-only call shows. -/
theorem c1_counterexample :
    role_get Kdemo (some "ra") (some "B") =
      Except.ok (PVal.pdict [("B", PVal.pdict
        [("id", PVal.pstr "rb"), ("name", PVal.pstr "B")])])
  ∧ role_get Kdemo (some "ra") Option.none =
      Except.ok (PVal.pdict [("A", PVal.pdict
        [("id", PVal.pstr "ra"), ("name", PVal.pstr "A")])])
  ∧ role_get Kdemo (some "ra") (some "B") ≠
      role_get Kdemo (some "ra") Option.none := by
  refine ⟨rfl, rfl, ?_⟩
  intro h
  rw [show role_get Kdemo (some "ra") (some "B") =
      Except.ok (PVal.pdict [("B", PVal.pdict
        [("id", PVal.pstr "rb"), ("name", PVal.pstr "B")])]) from rfl,
    show role_get Kdemo (some "ra") Option.none =
      Except.ok (PVal.pdict [("A", PVal.pdict
        [("id", PVal.pstr "ra"), ("name", PVal.pstr "A")])]) from rfl] at h
  simp at h

/-- C1, amended: in the get/delete operations the name scan runs first
whenever a name was supplied: the first exact, case-sensitive match in
the listing overwrites any supplied id; the supplied id is used
unchanged (with no existence check at resolution time) only when no
name was supplied or the supplied name matches nothing.  (Shown for
`role_get`, `user_get` and `project_delete`; the update operations scan
only when no truthy id was supplied.) -/
theorem c1_resolution (k : Client) :
    (∀ role_id name r, truthyS name = true →
        k.roles.find? (fun x => x.name == name.getD "") = some r →
        role_get k role_id name = role_get k (some r.id) Option.none)
  ∧ (∀ role_id name,
        k.roles.find? (fun x => x.name == name.getD "") = Option.none →
        role_get k role_id name = role_get k role_id Option.none)
  ∧ (∀ user_id name domain u, truthyS name = true →
        (usersList k domain).find? (fun x => x.name == name.getD "") = some u →
        user_get k user_id name domain =
          user_get k (some u.id) Option.none domain)
  ∧ (∀ user_id name domain,
        (usersList k domain).find? (fun x => x.name == name.getD "") =
          Option.none →
        user_get k user_id name domain = user_get k user_id Option.none domain)
  ∧ (∀ project_id name p, truthyS name = true →
        k.projects.find? (fun x => x.name == name.getD "") = some p →
        project_delete k project_id name =
          project_delete k (some p.id) name)
  ∧ (∀ pid name q, truthyS name = true →
        k.projects.find? (fun x => x.name == name.getD "") = Option.none →
        truthyS (some pid) = true →
        projectsGet k pid = some q →
        project_delete k (some pid) name =
          Except.ok (PVal.pstr ("Tenant ID " ++ pid ++ " deleted (" ++
              name.getD "" ++ ")"),
            { k with projects :=
                k.projects.filter (fun p => !(p.id == pid)) })) := by
  refine ⟨?_, ?_, ?_, ?_, ?_, ?_⟩
  · intro role_id name r h1 h2
    simp [role_get, h1, h2]
  · intro role_id name h2
    cases h1 : truthyS name <;> simp [role_get, h1, h2]
  · intro user_id name domain u h1 h2
    simp [user_get, h1, h2]
  · intro user_id name domain h2
    cases h1 : truthyS name <;> simp [user_get, h1, h2]
  · intro project_id name p h1 h2
    simp [project_delete, h1, h2]
  · intro pid name q h1 h2 h3 h4
    simp [project_delete, h1, h2, h3, h4, String.append_assoc]

/-- C1, witness for `c1_resolution` at concrete inputs on `Kdemo`: the
name match overrides the supplied id in `role_get` and `user_get`; a
non-matching name leaves the id in use; `project_delete` with both id
and matching name behaves as with the matched id. -/
theorem c1_resolution_witness :
    role_get Kdemo (some "ra") (some "B") =
      role_get Kdemo (some "rb") Option.none
  ∧ role_get Kdemo (some "ra") (some "nope") =
      role_get Kdemo (some "ra") Option.none
  ∧ user_get Kdemo (some "zz") (some "bob") Option.none =
      user_get Kdemo (some "u1") Option.none Option.none
  ∧ user_get Kdemo (some "u1") (some "nope") Option.none =
      user_get Kdemo (some "u1") Option.none Option.none
  ∧ project_delete Kdemo (some "zz") (some "proj") =
      project_delete Kdemo (some "p1") (some "proj")
  ∧ project_delete Kdemo (some "p1") (some "nope") =
      Except.ok (PVal.pstr "Tenant ID p1 deleted (nope)",
        { Kdemo with projects := [] }) := by
  refine ⟨?_, ?_, ?_, ?_, ?_, ?_⟩
  · exact (c1_resolution Kdemo).1 (some "ra") (some "B") ⟨"rb", "B"⟩ rfl rfl
  · exact (c1_resolution Kdemo).2.1 (some "ra") (some "nope") rfl
  · exact (c1_resolution Kdemo).2.2.1 (some "zz") (some "bob") Option.none
      ⟨"u1", "bob", "b@x", true, some "p", Option.none⟩ rfl rfl
  · exact (c1_resolution Kdemo).2.2.2.1 (some "u1") (some "nope")
      Option.none rfl
  · exact (c1_resolution Kdemo).2.2.2.2.1 (some "zz") (some "proj")
      ⟨"p1", "proj", "d", true, Option.none⟩ rfl rfl
  · exact (c1_resolution Kdemo).2.2.2.2.2 "p1" (some "nope")
      ⟨"p1", "proj", "d", true, Option.none⟩ rfl rfl rfl rfl

/- ## C3 -/

/-- C3, counterexample: `Kdemo` has no user named `"ghost"`, and
`ec2_credentials_create(name="ghost")` raises a KeyError (from
subscripting the resolution-failure dict returned by the nested
`user_get` with the name) instead of returning a sentinel mapping. -/
theorem c3_counterexample :
    ec2_credentials_create Kdemo Option.none (some "ghost") Option.none
      Option.none = Except.error Exn.keyError
  ∧ user_get Kdemo Option.none (some "ghost") Option.none =
      Except.ok (errdict "Unable to resolve user id") := by
  exact ⟨rfl, rfl⟩

/-- C3, amended: operations that scan the listing inline (such as
`role_get`) return the sentinel error dict on a resolution failure; but
operations that resolve names through nested get calls subscripted with
the name (`ec2_credentials_create`, `user_role_add`,
`ec2_credentials_delete`, `service_delete`) raise a KeyError when the
nested get fails to resolve, because `{'Error': ...}` has no key equal
to the name. -/
theorem c3_resolution_failures (k : Client) :
    (∀ name, truthyS name = true →
        k.roles.find? (fun r => r.name == name.getD "") = Option.none →
        role_get k Option.none name =
          Except.ok (errdict "Unable to resolve role id"))
  ∧ (∀ name, truthyS name = true → name.getD "" ≠ "Error" →
        k.users.find? (fun u => u.name == name.getD "") = Option.none →
        ec2_credentials_create k Option.none name Option.none Option.none =
          Except.error Exn.keyError)
  ∧ (∀ user, truthyS user = true → user.getD "" ≠ "Error" →
        k.users.find? (fun u => u.name == user.getD "") = Option.none →
        user_role_add k Option.none user Option.none Option.none Option.none
          Option.none = Except.error Exn.keyError) := by
  refine ⟨?_, ?_, ?_⟩
  · intro name h1 h2
    simp [role_get, h1, h2]
  · intro name h1 h2 h3
    have hb : (name.getD "" == "Error") = false := by
      simp [h2]
    simp [ec2_credentials_create, user_get, usersList, h1, h3, pyIndex,
      errdict, List.lookup, hb, Except.bind, bind]
  · intro user h1 h2 h3
    have hb : (user.getD "" == "Error") = false := by
      simp [h2]
    simp [user_role_add, user_get, usersList, h1, h3, pyIndex,
      errdict, List.lookup, hb, Except.bind, bind]

/-- C3, witness for `c3_resolution_failures` on `Kdemo`: `role_get` by an
unknown name returns the sentinel, while `ec2_credentials_create` and
`user_role_add` with an unknown user name raise KeyError. -/
theorem c3_resolution_failures_witness :
    role_get Kdemo Option.none (some "nonexistent") =
      Except.ok (errdict "Unable to resolve role id")
  ∧ ec2_credentials_create Kdemo Option.none (some "ghost") Option.none
      Option.none = Except.error Exn.keyError
  ∧ user_role_add Kdemo Option.none (some "ghost") Option.none Option.none
      Option.none Option.none = Except.error Exn.keyError := by
  refine ⟨?_, ?_, ?_⟩
  · exact (c3_resolution_failures Kdemo).1 (some "nonexistent") rfl rfl
  · exact (c3_resolution_failures Kdemo).2.1 (some "ghost") rfl
      (by decide) rfl
  · exact (c3_resolution_failures Kdemo).2.2 (some "ghost") rfl
      (by decide) rfl

/- ## C4 -/

/-- C4, counterexample: on `Kdemo`, the remote user `"u1"` carries the
legacy project field `projectId = "p"`, yet
`user_update(user_id="u1", name="new")` passes `default_project=None`
(the caller's unsupplied value) to the delegated update call — not the
value currently held by the remote object; `password` and `domain` are
likewise forwarded as `None`. -/
theorem c4_counterexample :
    user_update Kdemo (some "u1") (some "new") Option.none Option.none
        Option.none Option.none Option.none =
      Except.ok (PVal.pstr "Info updated for user ID u1",
        some (UpdateCall.usersUpdate "u1" "new" "b@x"
          Option.none Option.none Option.none true))
  ∧ (usersGet Kdemo "u1").map User.projectId = some (some "p")
  ∧ (Option.none : Option String) ≠ some "p" := by
  refine ⟨rfl, rfl, ?_⟩
  intro h
  simp at h

/-- C4, amended: in `user_update` and `project_update` only the fields
the source backfills are carried over from the current remote object:
unsupplied (falsy) `name`/`email` (resp. `name`/`description`) and
`None` `enabled` are replaced by the current values, while `password`,
`domain` and `project`/`default_project` are passed to the delegated
update exactly as supplied (here: `None`). -/
theorem c4_update_backfill (k : Client) :
    (∀ uid u name, truthyS (some uid) = true → usersGet k uid = some u →
        user_update k (some uid) name Option.none Option.none Option.none
            Option.none Option.none =
          Except.ok (PVal.pstr ("Info updated for user ID " ++ uid),
            some (UpdateCall.usersUpdate uid
              (if truthyS name then name.getD "" else u.name)
              u.email Option.none Option.none Option.none u.enabled)))
  ∧ (∀ pid p name, truthyS (some pid) = true → projectsGet k pid = some p →
        project_update k (some pid) name Option.none Option.none
            Option.none =
          Except.ok (PVal.pnone,
            some (UpdateCall.projectsUpdate pid
              (if truthyS name then name.getD "" else p.name)
              Option.none p.description p.enabled))) := by
  refine ⟨?_, ?_⟩
  · intro uid u name h1 h2
    simp [user_update, h1, h2]
  · intro pid p name h1 h2
    simp [project_update, h1, h2]

/-- C4, witness for `c4_update_backfill` on `Kdemo`: updating only the
name of user `"u1"` (resp. project `"p1"`) delegates an update call
carrying the current email/enabled (resp. description/enabled). -/
theorem c4_update_backfill_witness :
    user_update Kdemo (some "u1") (some "new") Option.none Option.none
        Option.none Option.none Option.none =
      Except.ok (PVal.pstr "Info updated for user ID u1",
        some (UpdateCall.usersUpdate "u1" "new" "b@x"
          Option.none Option.none Option.none true))
  ∧ project_update Kdemo (some "p1") (some "new") Option.none Option.none
        Option.none =
      Except.ok (PVal.pnone,
        some (UpdateCall.projectsUpdate "p1" "new" Option.none "d" true)) := by
  refine ⟨?_, ?_⟩
  · exact (c4_update_backfill Kdemo).1 "u1"
      ⟨"u1", "bob", "b@x", true, some "p", Option.none⟩ (some "new") rfl rfl
  · exact (c4_update_backfill Kdemo).2 "p1"
      ⟨"p1", "proj", "d", true, Option.none⟩ (some "new") rfl rfl

/- ## C6 -/

/-- C6, counterexample: on `Kdemo`, `ec2_credentials_create` performs no
follow-up get: it returns the reshaped create response, a flat dict
keyed `access/secret/project_id/user_id`, while the read path
`ec2_credentials_get` returns a dict keyed by the user id — the two
shapes differ. -/
theorem c6_counterexample :
    ec2_credentials_create Kdemo (some "u1") Option.none (some "p1")
        Option.none =
      Except.ok (PVal.pdict [("access", PVal.pstr "AK2"),
        ("secret", PVal.pstr "SK2"), ("project_id", PVal.pstr "p1"),
        ("user_id", PVal.pstr "u1")])
  ∧ ec2_credentials_get Kdemo (some "u1") Option.none (some "AK2") =
      Except.ok (PVal.pdict [("u1", PVal.pdict
        [("user_id", PVal.pstr "u1"), ("project", PVal.pstr "p1"),
         ("access", PVal.pstr "AK2"), ("secret", PVal.pstr "SK2")])])
  ∧ (PVal.pdict [("access", PVal.pstr "AK2"),
        ("secret", PVal.pstr "SK2"), ("project_id", PVal.pstr "p1"),
        ("user_id", PVal.pstr "u1")]).hasKey "u1" = false
  ∧ (PVal.pdict [("u1", PVal.pdict
        [("user_id", PVal.pstr "u1"), ("project", PVal.pstr "p1"),
         ("access", PVal.pstr "AK2"), ("secret", PVal.pstr "SK2")])]).hasKey
      "u1" = true := by
  exact ⟨rfl, rfl, rfl, rfl⟩

/-- C6, amended: `user_create` (like `project_create` and
`service_create`) re-gets the created entity by its fresh id and returns
the read-path representation; `role_create` re-gets by the created
*name*, which returns the read-path representation of the new role when
its name and id are fresh; `ec2_credentials_create` performs no re-get
and returns the reshaped create response, whose shape differs from the
read path. -/
theorem c6_create_canonical (k : Client) :
    (∀ name password email project_id enabled,
        k.freshId ≠ "" →
        (∀ u ∈ k.users, u.id ≠ k.freshId) →
        user_create k name password email project_id enabled =
          Except.ok (PVal.pdict [(name, userEntry
            { id := k.freshId, name := name, email := email,
              enabled := enabled, projectId := project_id,
              domain := Option.none })]))
  ∧ (∀ name, name ≠ "" → k.freshId ≠ "" →
        (∀ r ∈ k.roles, r.name ≠ name) →
        (∀ r ∈ k.roles, r.id ≠ k.freshId) →
        role_create k name =
          Except.ok (PVal.pdict [(name, roleEntry ⟨k.freshId, name⟩)]))
  ∧ (∀ uid pid, truthyS (some uid) = true → truthyS (some pid) = true →
        ec2_credentials_create k (some uid) Option.none (some pid)
            Option.none =
          Except.ok (PVal.pdict [("access", PVal.pstr k.freshAccess),
            ("secret", PVal.pstr k.freshSecret),
            ("project_id", PVal.pstr pid),
            ("user_id", PVal.pstr uid)])) := by
  refine ⟨?_, ?_, ?_⟩
  · intro name password email project_id enabled hfresh hids
    have htr : truthyS (some k.freshId) = true := truthyS_some_of_ne hfresh
    have hnone : k.users.find? (fun x => x.id == k.freshId) = Option.none := by
      rw [List.find?_eq_none]
      intro x hx
      simp [beq_iff_eq]
      exact hids x hx
    simp [user_create, usersCreate, user_get, usersGet, htr,
      find?_append_of_left_none _ hnone, List.find?]
  · intro name hname hfresh hnames hids
    have htrn : truthyS (some name) = true := truthyS_some_of_ne hname
    have hfindname : k.roles.find? (fun x => x.name == name) = Option.none := by
      rw [List.find?_eq_none]
      intro x hx
      simp [beq_iff_eq]
      exact hnames x hx
    have hfindid : k.roles.find? (fun x => x.id == k.freshId) = Option.none := by
      rw [List.find?_eq_none]
      intro x hx
      simp [beq_iff_eq]
      exact hids x hx
    have htr : truthyS (some k.freshId) = true := truthyS_some_of_ne hfresh
    simp [role_create, rolesCreate, role_get, rolesGet, htrn, htr,
      hfindname, PVal.hasKey, errdict,
      find?_append_of_left_none _ hfindname,
      find?_append_of_left_none _ hfindid, List.find?,
      Except.bind, bind, pure, Except.pure]
  · intro uid pid h1 h2
    simp [ec2_credentials_create, ec2Create, h1, h2,
      Except.bind, bind, pure, Except.pure]

/-- C6, witness for `c6_create_canonical` on `Kdemo`: creating user
`"al"` and role `"C"` returns their read-path entries under the fresh id
`"f1"`; the EC2 create returns the flat reshaped response. -/
theorem c6_create_canonical_witness :
    user_create Kdemo "al" "pw" "a@x" Option.none true =
      Except.ok (PVal.pdict [("al",
        userEntry ⟨"f1", "al", "a@x", true, Option.none, Option.none⟩)])
  ∧ role_create Kdemo "C" =
      Except.ok (PVal.pdict [("C", roleEntry ⟨"f1", "C"⟩)])
  ∧ ec2_credentials_create Kdemo (some "u1") Option.none (some "p1")
        Option.none =
      Except.ok (PVal.pdict [("access", PVal.pstr "AK2"),
        ("secret", PVal.pstr "SK2"), ("project_id", PVal.pstr "p1"),
        ("user_id", PVal.pstr "u1")]) := by
  refine ⟨?_, ?_, ?_⟩
  · exact (c6_create_canonical Kdemo).1 "al" "pw" "a@x" Option.none true
      (by decide) (by decide)
  · exact (c6_create_canonical Kdemo).2.1 "C" (by decide) (by decide)
      (by decide) (by decide)
  · exact (c6_create_canonical Kdemo).2.2 "u1" "p1" rfl rfl

/- ## C7 -/

/-- C7, counterexample: on `Kdemo`, `endpoint_delete("nova")` returns
the boolean `True`, not a human-readable confirmation string containing
the id. -/
theorem c7_counterexample :
    (endpoint_delete Kdemo "nova").1 = PVal.pbool true
  ∧ ¬ ∃ msg, PVal.pbool true = PVal.pstr msg := by
  refine ⟨rfl, ?_⟩
  rintro ⟨msg, h⟩
  simp at h

/-- C7, amended: `role_delete`, `user_delete` and `project_delete`
return `'<Kind> ID <id> deleted'` with `' (<name>)'` appended when a
name was given; `service_delete` returns a string with the id but never
the name; `endpoint_delete` returns the boolean `True` whenever the
service resolves (all matching endpoints having been deleted), not a
string. -/
theorem c7_delete_returns (k : Client) :
    (∀ rid r, truthyS (some rid) = true → rolesGet k rid = some r →
        (role_delete k (some rid) Option.none).map Prod.fst =
          Except.ok (PVal.pstr ("Role ID " ++ rid ++ " deleted")))
  ∧ (∀ n r r2, truthyS (some n) = true →
        k.roles.find? (fun x => x.name == n) = some r →
        truthyS (some r.id) = true → rolesGet k r.id = some r2 →
        (role_delete k Option.none (some n)).map Prod.fst =
          Except.ok (PVal.pstr ("Role ID " ++ r.id ++ " deleted (" ++ n ++ ")")))
  ∧ (∀ n u u2, truthyS (some n) = true →
        k.users.find? (fun x => x.name == n) = some u →
        truthyS (some u.id) = true → usersGet k u.id = some u2 →
        (user_delete k Option.none (some n)).map Prod.fst =
          Except.ok (PVal.pstr ("User ID " ++ u.id ++ " deleted (" ++ n ++ ")")))
  ∧ (∀ n s, truthyS (some n) = true →
        k.services.find? (fun x => x.name == n) = some s →
        truthyS (some s.id) = true → servicesGet k s.id = some s →
        (service_delete k Option.none (some n)).map Prod.fst =
          Except.ok (PVal.pstr
            ("Keystone service ID \"" ++ s.id ++ "\" deleted")))
  ∧ (∀ service s, serviceByName k service = some s →
        (endpoint_delete k service).1 = PVal.pbool true) := by
  refine ⟨?_, ?_, ?_, ?_, ?_⟩
  · intro rid r h1 h2
    simp [role_delete, h1, h2, Except.map]
  · intro n r r2 h1 h2 h3 h4
    simp [role_delete, h1, h2, h3, h4, Except.map, String.append_assoc]
  · intro n u u2 h1 h2 h3 h4
    simp [user_delete, h1, h2, h3, h4, Except.map, String.append_assoc]
  · intro n s h1 h2 h3 h4
    have hs : s.name = n := by
      have := List.find?_some h2
      simpa [beq_iff_eq] using this
    simp [service_delete, service_get, h1, h2, h3, h4, pyIndex,
      serviceEntry, asOptStr, List.lookup, hs, Except.bind, bind,
      pure, Except.pure, Except.map]
  · intro service s hs
    have hsvc : serviceByName (epLoop k k.endpoints s.id) service = some s := by
      have hserv := epLoop_services k.endpoints k s.id
      simpa [serviceByName, hserv] using hs
    have hfind : (epLoop k k.endpoints s.id).endpoints.find?
        (fun e => e.service_id == s.id) = Option.none := by
      rw [List.find?_eq_none]
      intro e he
      simp [epLoop_no_match k s.id e he]
    simp [endpoint_delete, hs, endpoint_get, hsvc, hfind, errdict,
      PVal.hasKey]

/-- C7, witness for `c7_delete_returns` on `Kdemo`: deleting role
`"ra"` by id, role `"B"`, user `"bob"` and service `"nova"` by name, and
the endpoints of `"nova"`. -/
theorem c7_delete_returns_witness :
    (role_delete Kdemo (some "ra") Option.none).map Prod.fst =
      Except.ok (PVal.pstr "Role ID ra deleted")
  ∧ (role_delete Kdemo Option.none (some "B")).map Prod.fst =
      Except.ok (PVal.pstr "Role ID rb deleted (B)")
  ∧ (user_delete Kdemo Option.none (some "bob")).map Prod.fst =
      Except.ok (PVal.pstr "User ID u1 deleted (bob)")
  ∧ (service_delete Kdemo Option.none (some "nova")).map Prod.fst =
      Except.ok (PVal.pstr "Keystone service ID \"s1\" deleted")
  ∧ (endpoint_delete Kdemo "nova").1 = PVal.pbool true := by
  refine ⟨?_, ?_, ?_, ?_, ?_⟩
  · exact (c7_delete_returns Kdemo).1 "ra" ⟨"ra", "A"⟩ rfl rfl
  · exact (c7_delete_returns Kdemo).2.1 "B" ⟨"rb", "B"⟩ ⟨"rb", "B"⟩
      rfl rfl rfl rfl
  · exact (c7_delete_returns Kdemo).2.2.1 "bob"
      ⟨"u1", "bob", "b@x", true, some "p", Option.none⟩
      ⟨"u1", "bob", "b@x", true, some "p", Option.none⟩ rfl rfl rfl rfl
  · exact (c7_delete_returns Kdemo).2.2.2.1 "nova"
      ⟨"s1", "nova", "compute", "desc"⟩ rfl rfl rfl rfl
  · exact (c7_delete_returns Kdemo).2.2.2.2 "nova"
      ⟨"s1", "nova", "compute", "desc"⟩ rfl

/- ## C5 -/

/-- C5: when the named service resolves to `s`, `endpoint_delete`
removes every endpoint whose `service_id` equals `s.id` — none survives
in the post-state — and (when remote endpoint ids are distinct, as the
remote guarantees) the post-state is exactly the pre-state with all
matching endpoints removed, so non-matching endpoints are untouched. -/
theorem c5_endpoint_delete_all (k : Client) (service : String) (s : Service)
    (hs : serviceByName k service = some s) :
    (∀ e ∈ (endpoint_delete k service).2.endpoints,
        (e.service_id == s.id) = false)
  ∧ ((k.endpoints.map Endpoint.id).Nodup →
      (endpoint_delete k service).2.endpoints =
        k.endpoints.filter (fun e => !(e.service_id == s.id))) := by
  have h2nd : (endpoint_delete k service).2 = epLoop k k.endpoints s.id := by
    simp [endpoint_delete, hs, apply_ite]
  refine ⟨?_, ?_⟩
  · rw [h2nd]
    exact epLoop_no_match k s.id
  · intro hnd
    rw [h2nd, epLoop_endpoints]
    refine List.filter_congr ?_
    intro x hx
    suffices h : ((k.endpoints.filter (fun e => e.service_id == s.id)).any
        (fun e => x.id == e.id)) = (x.service_id == s.id) by
      rw [h]
    cases hm : x.service_id == s.id with
    | true =>
      exact List.any_eq_true.mpr ⟨x, List.mem_filter.mpr ⟨hx, hm⟩, by simp⟩
    | false =>
      rw [List.any_eq_false]
      intro e hef hbeq
      have hemem := (List.mem_filter.mp hef).1
      have hematch := (List.mem_filter.mp hef).2
      have hxe : x = e :=
        List.inj_on_of_nodup_map hnd hx hemem (by simpa [beq_iff_eq] using hbeq)
      rw [hxe, hematch] at hm
      exact absurd hm (by decide)

/-- C5, witness for `c5_endpoint_delete_all` on `Kdemo`: deleting the
endpoints of `"nova"` (service id `"s1"`, two matching endpoints)
removes both and leaves exactly the unrelated endpoint `"e3"`. -/
theorem c5_endpoint_delete_all_witness :
    (∀ e ∈ (endpoint_delete Kdemo "nova").2.endpoints,
        (e.service_id == "s1") = false)
  ∧ (endpoint_delete Kdemo "nova").2.endpoints =
      [⟨"e3", "r", "public", "url3", "s9"⟩] := by
  have h := c5_endpoint_delete_all Kdemo "nova"
    ⟨"s1", "nova", "compute", "desc"⟩ rfl
  refine ⟨h.1, ?_⟩
  rw [h.2 (by decide)]
  rfl

end KeystoneMod
